import Mathlib

/-!
Shallow embedding of the 4BSC automation bot (`main.js`).

External effects (HTTP api, AI generator, blockchain client, signing) are
modelled as environments: each retried network call is a function
`Nat → Except Err R` giving the outcome of the i-th attempt, and one-shot
calls are a single `Except Err R`.  JavaScript falsiness of a missing
field is modelled with `Option` (`none` = absent / falsy).  A falsy
response object and a response with a falsy `data` field take the same
branch in the source (`if (!resp || !resp.data)`), so both are modelled
as `data = none`.
-/

abbrev Err := String

/-- `retryWithBackoff` from `main.js` lines 48-60, with the sleeps and the
number of attempts made explicit in the result.  `fuel` is the number of
loop iterations left (`retries - i`); the JS test `i === retries - 1` is
`fuel = 0` after consuming one unit.  A `none` result models the loop
finishing without returning (JS `undefined`, only possible when
`retries = 0`). -/
def retryGo {E A : Type} (fn : Nat → Except E A) (delay : Nat) :
    Nat → Nat → Option (Except E A) × List Nat × Nat
  | _, 0 => (none, [], 0)
  | i, fuel + 1 =>
    match fn i with
    | Except.ok a => (some (Except.ok a), [], 1)
    | Except.error e =>
      if fuel = 0 then (some (Except.error e), [], 1)
      else
        let r := retryGo fn delay (i + 1) fuel
        (r.1, delay * 2 ^ i :: r.2.1, r.2.2 + 1)

/-- `retryWithBackoff(fn, retries, delay)`: result, list of backoff sleeps
performed (in milliseconds), and number of attempts made. -/
def retryWithBackoff {E A : Type} (fn : Nat → Except E A) (retries delay : Nat) :
    Option (Except E A) × List Nat × Nat :=
  retryGo fn delay 0 retries

/-- Every call site of `retryWithBackoff` in `main.js` uses the defaults
`MAX_RETRIES = 3`, `RETRY_DELAY = 5000`; this is the result it yields. -/
def retryResult {E A : Type} (fn : Nat → Except E A) : Option (Except E A) :=
  (retryWithBackoff fn 3 5000).1

/-- Content produced by the AI collaborator for the agent task, after
`JSON.parse` and the `??` default (`main.js` lines 170-171).  A generation
or parse failure is the `Except.error` case of the environment field; a
`null` parse yields empty strings, so it is the same as missing fields. -/
structure AgentData where
  name_agent : String
  description : String
deriving DecidableEq

/-- Content produced by the AI collaborator for the request task
(`main.js` lines 228-229). -/
structure RequestData where
  title : String
  description : String
deriving DecidableEq

/-- Body of a platform creation response; `id = none` models a falsy
`data?.id`. -/
structure RespData where
  id : Option String
deriving DecidableEq

/-- Platform creation response; `data = none` models a falsy response or a
falsy `data` field (both take the `if (!resp || !resp.data)` branch). -/
structure ApiResponse where
  data : Option RespData
deriving DecidableEq

/-- Result of `contractCall`; `hash = none` models a falsy result or a
missing `hash` (both fail the `if (txResult && txResult.hash)` test). -/
structure TxResult where
  hash : Option String
deriving DecidableEq

/-- Environment of one `createAgent` run: the AI generation outcome and the
per-attempt outcomes of the two retried calls (`createNewAgent`,
`contractCall('addNewAgent', ...)`). -/
structure AgentEnv where
  genContent : Except Err AgentData
  createCalls : Nat → Except Err ApiResponse
  chainCalls : Nat → Except Err TxResult

/-- Environment of one `createRequest` run. -/
structure RequestEnv where
  genContent : Except Err RequestData
  createCalls : Nat → Except Err ApiResponse
  chainCalls : Nat → Except Err TxResult

/-- The per-account mutable statistics record (`main.js` lines 444-455).
`lastRun` in the source is a locale string of the wall clock; here it is
the timestamp used for it, `none` meaning the initial `null`. -/
structure AccountStats where
  uid : Option String
  totalPoint : Int
  days : Int
  agents : Nat
  requests : Nat
  txs : Nat
  errors : Nat
  lastRun : Option Int
  startTime : Int
  cooldownSeconds : Int
deriving DecidableEq

/-- Outcome of `createAgent` / `createRequest`: the updated stats, the
boolean return value, and whether the platform creation call and the
on-chain call were issued at all. -/
structure StepOutcome where
  stats : AccountStats
  result : Bool
  createCalled : Bool
  chainCalled : Bool
deriving DecidableEq

/-- `createAgent` from `main.js` lines 162-217.  A thrown error anywhere in
the body is caught and counted (`errors++`); invalid generated content or a
falsy response / id / hash just returns `false` with no counter change;
only a successful transaction increments `agents` and `txs`. -/
def createAgent (env : AgentEnv) (s : AccountStats) : StepOutcome :=
  match env.genContent with
  | Except.error _ =>
    ⟨{ s with errors := s.errors + 1 }, false, false, false⟩
  | Except.ok agent =>
    if agent.name_agent = "" ∨ agent.description = "" then
      ⟨s, false, false, false⟩
    else
      match retryResult env.createCalls with
      | none => ⟨s, false, true, false⟩
      | some (Except.error _) =>
        ⟨{ s with errors := s.errors + 1 }, false, true, false⟩
      | some (Except.ok resp) =>
        match resp.data with
        | none => ⟨s, false, true, false⟩
        | some d =>
          match d.id with
          | none => ⟨s, false, true, false⟩
          | some _ =>
            match retryResult env.chainCalls with
            | none => ⟨s, false, true, true⟩
            | some (Except.error _) =>
              ⟨{ s with errors := s.errors + 1 }, false, true, true⟩
            | some (Except.ok tx) =>
              match tx.hash with
              | none => ⟨s, false, true, true⟩
              | some _ =>
                ⟨{ s with agents := s.agents + 1, txs := s.txs + 1 },
                  true, true, true⟩

/-- `createRequest` from `main.js` lines 220-275, symmetric to
`createAgent` but incrementing `requests`. -/
def createRequest (env : RequestEnv) (s : AccountStats) : StepOutcome :=
  match env.genContent with
  | Except.error _ =>
    ⟨{ s with errors := s.errors + 1 }, false, false, false⟩
  | Except.ok req =>
    if req.title = "" ∨ req.description = "" then
      ⟨s, false, false, false⟩
    else
      match retryResult env.createCalls with
      | none => ⟨s, false, true, false⟩
      | some (Except.error _) =>
        ⟨{ s with errors := s.errors + 1 }, false, true, false⟩
      | some (Except.ok resp) =>
        match resp.data with
        | none => ⟨s, false, true, false⟩
        | some d =>
          match d.id with
          | none => ⟨s, false, true, false⟩
          | some _ =>
            match retryResult env.chainCalls with
            | none => ⟨s, false, true, true⟩
            | some (Except.error _) =>
              ⟨{ s with errors := s.errors + 1 }, false, true, true⟩
            | some (Except.ok tx) =>
              match tx.hash with
              | none => ⟨s, false, true, true⟩
              | some _ =>
                ⟨{ s with requests := s.requests + 1, txs := s.txs + 1 },
                  true, true, true⟩

/-- Body of the daily-task verification response (`main.js` line 295).
The completion flags are `Option Bool`: `none` models `undefined`. -/
structure VerifyData where
  is_create_agent : Option Bool
  is_create_request : Option Bool
  finish_time : Int
deriving DecidableEq

/-- Daily-task verification response; `data = none` models a falsy
response or a falsy `data` field. -/
structure VerifyResponse where
  data : Option VerifyData
deriving DecidableEq

/-- Environment of one `executeDailyTasks` run; `now` is
`Math.floor(Date.now() / 1000)` at line 304. -/
structure TaskEnv where
  verifyCalls : Nat → Except Err VerifyResponse
  agentEnv : AgentEnv
  requestEnv : RequestEnv
  now : Int

/-- Outcome of `executeDailyTasks`: updated stats, boolean return value,
whether each creation step function was entered (`...Attempted`), whether
each platform creation call was issued, and whether any on-chain call was
issued. -/
structure TaskOutcome where
  stats : AccountStats
  result : Bool
  agentAttempted : Bool
  requestAttempted : Bool
  agentCreateCalled : Bool
  requestCreateCalled : Bool
  chainCalled : Bool
deriving DecidableEq

/-- The outcome of `executeDailyTasks` on the early-return paths that skip
the account without touching its stats (`main.js` lines 289-302). -/
def skipOutcome (s : AccountStats) : TaskOutcome :=
  ⟨s, false, false, false, false, false, false⟩

/-- `executeDailyTasks` from `main.js` lines 278-349.  A throw from the
retried verification call reaches the outer catch (`errors++`); an invalid
response shape returns `false` with no mutation; otherwise each task whose
completion flag is falsy is attempted, and `lastRun` / `cooldownSeconds`
are stored regardless of the branch taken. -/
def executeDailyTasks (env : TaskEnv) (s : AccountStats) : TaskOutcome :=
  match retryResult env.verifyCalls with
  | none => skipOutcome s
  | some (Except.error _) =>
    ⟨{ s with errors := s.errors + 1 }, false, false, false, false, false, false⟩
  | some (Except.ok resp) =>
    match resp.data with
    | none => skipOutcome s
    | some d =>
      if d.is_create_agent.isNone || d.is_create_request.isNone then
        skipOutcome s
      else
        let ca := d.is_create_agent.getD false
        let cr := d.is_create_request.getD false
        let secondsUntilNextTask := d.finish_time + 24 * 60 * 60 - env.now
        let aOut : Option StepOutcome :=
          if ca then none else some (createAgent env.agentEnv s)
        let s1 := match aOut with
          | none => s
          | some o => o.stats
        let rOut : Option StepOutcome :=
          if cr then none else some (createRequest env.requestEnv s1)
        let s2 := match rOut with
          | none => s1
          | some o => o.stats
        ⟨{ s2 with lastRun := some env.now, cooldownSeconds := secondsUntilNextTask },
          true,
          !ca,
          !cr,
          (match aOut with
            | none => false
            | some o => o.createCalled),
          (match rOut with
            | none => false
            | some o => o.createCalled),
          (match aOut with
            | none => false
            | some o => o.chainCalled) ||
            (match rOut with
            | none => false
            | some o => o.chainCalled)⟩

/-- Body of the login response (`main.js` line 140); `token = none` models
a falsy / missing token. -/
structure LoginData where
  token : Option String
  token_expire_time : Int
deriving DecidableEq

/-- Login response; `data = none` models a falsy response or `data`. -/
structure LoginResponse where
  data : Option LoginData
deriving DecidableEq

/-- Environment of one `getToken` run (`main.js` lines 107-159): each step
of the nonce / sign / login / inviter exchange.  An `Except.error`
anywhere is a thrown error, caught at line 155 and turned into `null`.
`nonce = Except.ok none` models a falsy `message` or `message.data`. -/
structure AuthEnv where
  keyPresent : Bool
  walletAddress : Except Err String
  nonce : Except Err (Option String)
  signResult : Except Err Unit
  loginResp : Except Err LoginResponse
  setInviterResult : Except Err Unit

/-- The data carried forward across cycles on successful authentication
(`{ ...loginResponse.data, address }`, `main.js` line 149). -/
structure TokenData where
  token : String
  token_expire_time : Int
  address : String
deriving DecidableEq

/-- `getToken` from `main.js` lines 107-159: `none` on any failure, the
session token otherwise.  It never touches `accountsStats`. -/
def getToken (env : AuthEnv) : Option TokenData :=
  if !env.keyPresent then none
  else
    match env.walletAddress with
    | Except.error _ => none
    | Except.ok address =>
      match env.nonce with
      | Except.error _ => none
      | Except.ok none => none
      | Except.ok (some _) =>
        match env.signResult with
        | Except.error _ => none
        | Except.ok _ =>
          match env.loginResp with
          | Except.error _ => none
          | Except.ok resp =>
            match resp.data with
            | none => none
            | some d =>
              match d.token with
              | none => none
              | some t =>
                match env.setInviterResult with
                | Except.error _ => none
                | Except.ok _ => some ⟨t, d.token_expire_time, address⟩

/-- `checkTokenValid` from `main.js` lines 94-104: `false` iff
`now >= token_expire_time`. -/
def checkTokenValid (now token_expire_time : Int) : Bool :=
  if now ≥ token_expire_time then false else true

/-- Body of the user-profile response (`main.js` lines 397-400). -/
structure UserData where
  uid : Option String
  total_point : Int
  days : Int
deriving DecidableEq

/-- User-profile response; `data = none` models a falsy response or
`data`. -/
structure UserResponse where
  data : Option UserData
deriving DecidableEq

/-- Environment of one `processAccount` run; `now` is the clock sampled by
`checkTokenValid` (`main.js` line 95). -/
structure ProcEnv where
  auth : AuthEnv
  now : Int
  task : TaskEnv
  userResp : Except Err UserResponse

/-- Outcome of `processAccount`: updated stats, the returned token data
(the carried-forward session slot), how many times `getToken` was invoked,
and whether `executeDailyTasks` was entered. -/
structure ProcOutcome where
  stats : AccountStats
  tokenData : Option TokenData
  getTokenCalls : Nat
  taskStarted : Bool
deriving DecidableEq

/-- `processAccount` from `main.js` lines 352-421.  With no carried token
it authenticates; with one it re-authenticates only when
`checkTokenValid` fails.  Authentication failure returns `null` with no
stats mutation.  Otherwise it runs `executeDailyTasks`, then on task
success makes one best-effort profile refresh whose failure is only
logged.  Every failure of a modelled collaborator is handled before the
outer catch at line 414, so that branch is unreachable here. -/
def processAccount (env : ProcEnv) (s : AccountStats) (tokenData : Option TokenData) :
    ProcOutcome :=
  let auth : Option TokenData × Nat :=
    match tokenData with
    | none => (getToken env.auth, 1)
    | some t =>
      if checkTokenValid env.now t.token_expire_time then (some t, 0)
      else (getToken env.auth, 1)
  match auth with
  | (none, n) => ⟨s, none, n, false⟩
  | (some t, n) =>
    let tOut := executeDailyTasks env.task s
    if !tOut.result then ⟨tOut.stats, some t, n, true⟩
    else
      match env.userResp with
      | Except.error _ => ⟨tOut.stats, some t, n, true⟩
      | Except.ok resp =>
        match resp.data with
        | none => ⟨tOut.stats, some t, n, true⟩
        | some u =>
          ⟨{ tOut.stats with uid := u.uid, totalPoint := u.total_point, days := u.days },
            some t, n, true⟩

/-- The initial statistics record (`main.js` lines 443-456). -/
def initStats (startTime : Int) : AccountStats :=
  ⟨none, 0, 0, 0, 0, 0, 0, none, startTime, 0⟩

/-- States of one account's statistics reachable from initialization by
any number of `processAccount` runs (the only code mutating an account's
stats), under arbitrary collaborator behaviour. -/
inductive Reachable : AccountStats → Prop
  | init (t : Int) : Reachable (initStats t)
  | step (env : ProcEnv) (tok : Option TokenData) {s : AccountStats} :
      Reachable s → Reachable (processAccount env s tok).stats

/-- One cycle of the main loop (`main.js` lines 469-479): the accounts are
processed strictly one by one in index order, each from its own
environment, stats and carried token. -/
def runCycle (envs : List ProcEnv) :
    List (AccountStats × Option TokenData) → List (AccountStats × Option TokenData) :=
  List.zipWith (fun e p =>
    ((processAccount e p.1 p.2).stats, (processAccount e p.1 p.2).tokenData)) envs

/-- A concrete operation whose first three attempts all fail. -/
def allFailOp : Nat → Except String Nat := fun i => Except.error (toString i)

/-- A concrete agent environment in which every collaborator call fails. -/
def failAgentEnv : AgentEnv :=
  ⟨Except.error "gen", fun _ => Except.error "create", fun _ => Except.error "chain"⟩

/-- A concrete request environment in which every collaborator call fails. -/
def failRequestEnv : RequestEnv :=
  ⟨Except.error "gen", fun _ => Except.error "create", fun _ => Except.error "chain"⟩

/-- A concrete task environment whose verification response has a falsy
`data` field. -/
def noDataTaskEnv : TaskEnv :=
  ⟨fun _ => Except.ok ⟨none⟩, failAgentEnv, failRequestEnv, 0⟩

/-- A concrete task environment whose verification response carries `data`
but leaves both completion flags `undefined`. -/
def noFlagsTaskEnv : TaskEnv :=
  ⟨fun _ => Except.ok ⟨some ⟨none, none, 1000⟩⟩, failAgentEnv, failRequestEnv, 0⟩

/-- A concrete successful platform creation response. -/
def okCreateResp : ApiResponse := ⟨some ⟨some "7"⟩⟩

/-- A concrete successful on-chain transaction result. -/
def okTx : TxResult := ⟨some "0xabc"⟩

/-- A concrete agent environment whose AI content has an empty name but
whose remote calls would all succeed. -/
def emptyNameAgentEnv : AgentEnv :=
  ⟨Except.ok ⟨"", "a helpful agent"⟩, fun _ => Except.ok okCreateResp, fun _ => Except.ok okTx⟩

/-- A concrete fully successful request environment. -/
def okRequestEnv : RequestEnv :=
  ⟨Except.ok ⟨"a title", "a description"⟩, fun _ => Except.ok okCreateResp,
    fun _ => Except.ok okTx⟩

/-- A concrete task environment: both tasks still open, invalid AI agent
content, fully successful request pipeline. -/
def emptyNameTaskEnv : TaskEnv :=
  ⟨fun _ => Except.ok ⟨some ⟨some false, some false, 1000⟩⟩, emptyNameAgentEnv,
    okRequestEnv, 2000⟩

/-- A concrete task environment in which both daily tasks are already
completed, with `finish_time = 1000` and `now = 4600`. -/
def bothDoneTaskEnv : TaskEnv :=
  ⟨fun _ => Except.ok ⟨some ⟨some true, some true, 1000⟩⟩, failAgentEnv,
    failRequestEnv, 4600⟩

/-- A concrete authentication environment that fails (falsy nonce data). -/
def failAuthEnv : AuthEnv :=
  ⟨true, Except.ok "0xaddr", Except.ok none, Except.ok (), Except.error "login",
    Except.ok ()⟩

/-- A concrete authentication environment in which every step succeeds. -/
def okAuthEnv : AuthEnv :=
  ⟨true, Except.ok "0xaddr", Except.ok (some "n1"), Except.ok (),
    Except.ok ⟨some ⟨some "tok", 500⟩⟩, Except.ok ()⟩

/-- A concrete account-processing environment whose authentication fails. -/
def failAuthProcEnv : ProcEnv :=
  ⟨failAuthEnv, 100, noDataTaskEnv, Except.ok ⟨none⟩⟩

/-- A concrete account-processing environment with working authentication. -/
def okAuthProcEnv : ProcEnv :=
  ⟨okAuthEnv, 100, bothDoneTaskEnv, Except.ok ⟨none⟩⟩

/-- C1: `retryWithBackoff` with `maxAttempts = 3`, `baseDelay = 5000` runs the
operation at most 3 times; after failed attempt `i` (`i < 2`) it sleeps
exactly `5000 * 2 ^ i` (so 5000 then 10000); success at any attempt returns
that attempt's result immediately with no further attempts; if all three
attempts fail, the final attempt's error is propagated unchanged. -/
theorem c1_retry_backoff {E A : Type} (fn : Nat → Except E A) :
    (retryWithBackoff fn 3 5000).2.2 ≤ 3
    ∧ (∀ a, fn 0 = Except.ok a →
        retryWithBackoff fn 3 5000 = (some (Except.ok a), [], 1))
    ∧ (∀ e0 a, fn 0 = Except.error e0 → fn 1 = Except.ok a →
        retryWithBackoff fn 3 5000 = (some (Except.ok a), [5000], 2))
    ∧ (∀ e0 e1 a, fn 0 = Except.error e0 → fn 1 = Except.error e1 →
        fn 2 = Except.ok a →
        retryWithBackoff fn 3 5000 = (some (Except.ok a), [5000, 10000], 3))
    ∧ (∀ e0 e1 e2, fn 0 = Except.error e0 → fn 1 = Except.error e1 →
        fn 2 = Except.error e2 →
        retryWithBackoff fn 3 5000 = (some (Except.error e2), [5000, 10000], 3)) := by
  refine ⟨?_, ?_, ?_, ?_, ?_⟩
  · cases h0 : fn 0 with
    | ok a => simp [retryWithBackoff, retryGo, h0]
    | error e0 =>
      cases h1 : fn 1 with
      | ok a => simp [retryWithBackoff, retryGo, h0, h1]
      | error e1 =>
        cases h2 : fn 2 with
        | ok a => simp [retryWithBackoff, retryGo, h0, h1, h2]
        | error e2 => simp [retryWithBackoff, retryGo, h0, h1, h2]
  · intro a h0
    simp [retryWithBackoff, retryGo, h0]
  · intro e0 a h0 h1
    simp [retryWithBackoff, retryGo, h0, h1]
  · intro e0 e1 a h0 h1 h2
    simp [retryWithBackoff, retryGo, h0, h1, h2]
  · intro e0 e1 e2 h0 h1 h2
    simp [retryWithBackoff, retryGo, h0, h1, h2]

/-- Witness for C1 at a concrete operation: all three attempts fail, the
sleeps are 5000 then 10000, and the third attempt's error is propagated. -/
theorem c1_retry_backoff_witness :
    retryWithBackoff allFailOp 3 5000 = (some (Except.error "2"), [5000, 10000], 3) :=
  (c1_retry_backoff allFailOp).2.2.2.2 "0" "1" "2" rfl rfl rfl

/-- `createAgent` either leaves the stats unchanged, or only bumps
`errors`, or bumps `agents` and `txs` together and returns `true`. -/
theorem createAgent_stats_cases (env : AgentEnv) (s : AccountStats) :
    (createAgent env s).stats = s
    ∨ (createAgent env s).stats = { s with errors := s.errors + 1 }
    ∨ ((createAgent env s).stats = { s with agents := s.agents + 1, txs := s.txs + 1 }
        ∧ (createAgent env s).result = true) := by
  cases hg : env.genContent with
  | error e => simp [createAgent, hg]
  | ok agent =>
    by_cases hn : agent.name_agent = "" ∨ agent.description = ""
    · simp [createAgent, hg, hn]
    · cases hr : retryResult env.createCalls with
      | none => simp [createAgent, hg, hn, hr]
      | some r =>
        cases r with
        | error e => simp [createAgent, hg, hn, hr]
        | ok resp =>
          cases hd : resp.data with
          | none => simp [createAgent, hg, hn, hr, hd]
          | some d =>
            cases hi : d.id with
            | none => simp [createAgent, hg, hn, hr, hd, hi]
            | some i =>
              cases hc : retryResult env.chainCalls with
              | none => simp [createAgent, hg, hn, hr, hd, hi, hc]
              | some c =>
                cases c with
                | error e => simp [createAgent, hg, hn, hr, hd, hi, hc]
                | ok tx =>
                  cases hh : tx.hash with
                  | none => simp [createAgent, hg, hn, hr, hd, hi, hc, hh]
                  | some h => simp [createAgent, hg, hn, hr, hd, hi, hc, hh]

/-- `createRequest` either leaves the stats unchanged, or only bumps
`errors`, or bumps `requests` and `txs` together and returns `true`. -/
theorem createRequest_stats_cases (env : RequestEnv) (s : AccountStats) :
    (createRequest env s).stats = s
    ∨ (createRequest env s).stats = { s with errors := s.errors + 1 }
    ∨ ((createRequest env s).stats = { s with requests := s.requests + 1, txs := s.txs + 1 }
        ∧ (createRequest env s).result = true) := by
  cases hg : env.genContent with
  | error e => simp [createRequest, hg]
  | ok req =>
    by_cases hn : req.title = "" ∨ req.description = ""
    · simp [createRequest, hg, hn]
    · cases hr : retryResult env.createCalls with
      | none => simp [createRequest, hg, hn, hr]
      | some r =>
        cases r with
        | error e => simp [createRequest, hg, hn, hr]
        | ok resp =>
          cases hd : resp.data with
          | none => simp [createRequest, hg, hn, hr, hd]
          | some d =>
            cases hi : d.id with
            | none => simp [createRequest, hg, hn, hr, hd, hi]
            | some i =>
              cases hc : retryResult env.chainCalls with
              | none => simp [createRequest, hg, hn, hr, hd, hi, hc]
              | some c =>
                cases c with
                | error e => simp [createRequest, hg, hn, hr, hd, hi, hc]
                | ok tx =>
                  cases hh : tx.hash with
                  | none => simp [createRequest, hg, hn, hr, hd, hi, hc, hh]
                  | some h => simp [createRequest, hg, hn, hr, hd, hi, hc, hh]

/-- Counter bookkeeping of `createAgent`: either all three counters are
unchanged, or `agents` and `txs` both advance by one. -/
theorem createAgent_ctrs (env : AgentEnv) (s : AccountStats) :
    ((createAgent env s).stats.agents = s.agents
      ∧ (createAgent env s).stats.requests = s.requests
      ∧ (createAgent env s).stats.txs = s.txs)
    ∨ ((createAgent env s).stats.agents = s.agents + 1
      ∧ (createAgent env s).stats.requests = s.requests
      ∧ (createAgent env s).stats.txs = s.txs + 1) := by
  rcases createAgent_stats_cases env s with h | h | ⟨h, _⟩ <;> simp [h]

/-- Counter bookkeeping of `createRequest`: either all three counters are
unchanged, or `requests` and `txs` both advance by one. -/
theorem createRequest_ctrs (env : RequestEnv) (s : AccountStats) :
    ((createRequest env s).stats.agents = s.agents
      ∧ (createRequest env s).stats.requests = s.requests
      ∧ (createRequest env s).stats.txs = s.txs)
    ∨ ((createRequest env s).stats.agents = s.agents
      ∧ (createRequest env s).stats.requests = s.requests + 1
      ∧ (createRequest env s).stats.txs = s.txs + 1) := by
  rcases createRequest_stats_cases env s with h | h | ⟨h, _⟩ <;> simp [h]

/-- When the retried verification call returns a response whose `data` is
falsy or whose completion flags are not both present, `executeDailyTasks`
returns `false` having mutated nothing and called nothing. -/
theorem executeDailyTasks_invalid (env : TaskEnv) (s : AccountStats) (resp : VerifyResponse)
    (hv : retryResult env.verifyCalls = some (Except.ok resp))
    (hbad : resp.data = none
      ∨ ∃ d, resp.data = some d
          ∧ (d.is_create_agent = none ∨ d.is_create_request = none)) :
    executeDailyTasks env s = skipOutcome s := by
  rcases hbad with hd | ⟨d, hd, hca | hcr⟩
  · simp [executeDailyTasks, hv, hd]
  · simp [executeDailyTasks, hv, hd, hca]
  · simp [executeDailyTasks, hv, hd, hcr]

/-- When the verification response is well-formed, `executeDailyTasks`
returns `true` and its final stats are those of the taken task branches
with `lastRun` and `cooldownSeconds` stored on top. -/
theorem executeDailyTasks_valid (env : TaskEnv) (s : AccountStats) (resp : VerifyResponse)
    (d : VerifyData) (ca0 cr0 : Bool)
    (hv : retryResult env.verifyCalls = some (Except.ok resp))
    (hd : resp.data = some d)
    (hca : d.is_create_agent = some ca0)
    (hcr : d.is_create_request = some cr0) :
    (executeDailyTasks env s).stats =
      { (if cr0 then (if ca0 then s else (createAgent env.agentEnv s).stats)
          else (createRequest env.requestEnv
            (if ca0 then s else (createAgent env.agentEnv s).stats)).stats) with
        lastRun := some env.now,
        cooldownSeconds := d.finish_time + 24 * 60 * 60 - env.now }
    ∧ (executeDailyTasks env s).result = true := by
  cases ca0 <;> cases cr0 <;> simp [executeDailyTasks, hv, hd, hca, hcr]

/-- `executeDailyTasks` advances `agents` and `requests` each by at most
one, and `txs` by exactly their sum. -/
theorem executeDailyTasks_ctrs (env : TaskEnv) (s : AccountStats) :
    ∃ a r : Nat, a ≤ 1 ∧ r ≤ 1
      ∧ (executeDailyTasks env s).stats.agents = s.agents + a
      ∧ (executeDailyTasks env s).stats.requests = s.requests + r
      ∧ (executeDailyTasks env s).stats.txs = s.txs + a + r := by
  cases hv : retryResult env.verifyCalls with
  | none =>
    have h : executeDailyTasks env s = skipOutcome s := by simp [executeDailyTasks, hv]
    exact ⟨0, 0, by omega, by omega, by simp [h, skipOutcome], by simp [h, skipOutcome],
      by simp [h, skipOutcome]⟩
  | some v =>
    cases v with
    | error e =>
      have h : (executeDailyTasks env s).stats = { s with errors := s.errors + 1 } := by
        simp [executeDailyTasks, hv]
      exact ⟨0, 0, by omega, by omega, by simp [h], by simp [h], by simp [h]⟩
    | ok resp =>
      cases hd : resp.data with
      | none =>
        have h : executeDailyTasks env s = skipOutcome s :=
          executeDailyTasks_invalid env s resp hv (Or.inl hd)
        exact ⟨0, 0, by omega, by omega, by simp [h, skipOutcome], by simp [h, skipOutcome],
          by simp [h, skipOutcome]⟩
      | some d =>
        cases hca : d.is_create_agent with
        | none =>
          have h : executeDailyTasks env s = skipOutcome s :=
            executeDailyTasks_invalid env s resp hv (Or.inr ⟨d, hd, Or.inl hca⟩)
          exact ⟨0, 0, by omega, by omega, by simp [h, skipOutcome],
            by simp [h, skipOutcome], by simp [h, skipOutcome]⟩
        | some ca0 =>
          cases hcr : d.is_create_request with
          | none =>
            have h : executeDailyTasks env s = skipOutcome s :=
              executeDailyTasks_invalid env s resp hv (Or.inr ⟨d, hd, Or.inr hcr⟩)
            exact ⟨0, 0, by omega, by omega, by simp [h, skipOutcome],
              by simp [h, skipOutcome], by simp [h, skipOutcome]⟩
          | some cr0 =>
            have hstats := (executeDailyTasks_valid env s resp d ca0 cr0 hv hd hca hcr).1
            cases ca0 <;> cases cr0 <;> simp only [if_true, if_false, Bool.false_eq_true,
              ite_true, ite_false] at hstats
            · rcases createAgent_ctrs env.agentEnv s with ⟨ha1, ha2, ha3⟩ | ⟨ha1, ha2, ha3⟩ <;>
                rcases createRequest_ctrs env.requestEnv (createAgent env.agentEnv s).stats with
                  ⟨hb1, hb2, hb3⟩ | ⟨hb1, hb2, hb3⟩
              · refine ⟨0, 0, by omega, by omega, ?_, ?_, ?_⟩ <;> simp [hstats] <;> omega
              · refine ⟨0, 1, by omega, by omega, ?_, ?_, ?_⟩ <;> simp [hstats] <;> omega
              · refine ⟨1, 0, by omega, by omega, ?_, ?_, ?_⟩ <;> simp [hstats] <;> omega
              · refine ⟨1, 1, by omega, by omega, ?_, ?_, ?_⟩ <;> simp [hstats] <;> omega
            · rcases createAgent_ctrs env.agentEnv s with ⟨ha1, ha2, ha3⟩ | ⟨ha1, ha2, ha3⟩
              · refine ⟨0, 0, by omega, by omega, ?_, ?_, ?_⟩ <;> simp [hstats] <;> omega
              · refine ⟨1, 0, by omega, by omega, ?_, ?_, ?_⟩ <;> simp [hstats] <;> omega
            · rcases createRequest_ctrs env.requestEnv s with ⟨hb1, hb2, hb3⟩ | ⟨hb1, hb2, hb3⟩
              · refine ⟨0, 0, by omega, by omega, ?_, ?_, ?_⟩ <;> simp [hstats] <;> omega
              · refine ⟨0, 1, by omega, by omega, ?_, ?_, ?_⟩ <;> simp [hstats] <;> omega
            · refine ⟨0, 0, by omega, by omega, ?_, ?_, ?_⟩ <;> simp [hstats]

/-- `processAccount` leaves the stats at `s` (authentication failure), or
at the task outcome, or at the task outcome with only the profile fields
`uid` / `totalPoint` / `days` refreshed. -/
theorem processAccount_stats_cases (env : ProcEnv) (s : AccountStats) (tok : Option TokenData) :
    (processAccount env s tok).stats = s
    ∨ (processAccount env s tok).stats = (executeDailyTasks env.task s).stats
    ∨ ∃ u : UserData, (processAccount env s tok).stats =
        { (executeDailyTasks env.task s).stats with
          uid := u.uid, totalPoint := u.total_point, days := u.days } := by
  cases tok with
  | none =>
    cases hg : getToken env.auth with
    | none => exact Or.inl (by simp [processAccount, hg])
    | some t =>
      cases hres : (executeDailyTasks env.task s).result with
      | false => exact Or.inr (Or.inl (by simp [processAccount, hg, hres]))
      | true =>
        cases hu : env.userResp with
        | error e => exact Or.inr (Or.inl (by simp [processAccount, hg, hres, hu]))
        | ok uresp =>
          cases hud : uresp.data with
          | none => exact Or.inr (Or.inl (by simp [processAccount, hg, hres, hu, hud]))
          | some u =>
            exact Or.inr (Or.inr ⟨u, by simp [processAccount, hg, hres, hu, hud]⟩)
  | some t0 =>
    cases hvld : checkTokenValid env.now t0.token_expire_time with
    | true =>
      cases hres : (executeDailyTasks env.task s).result with
      | false => exact Or.inr (Or.inl (by simp [processAccount, hvld, hres]))
      | true =>
        cases hu : env.userResp with
        | error e => exact Or.inr (Or.inl (by simp [processAccount, hvld, hres, hu]))
        | ok uresp =>
          cases hud : uresp.data with
          | none => exact Or.inr (Or.inl (by simp [processAccount, hvld, hres, hu, hud]))
          | some u =>
            exact Or.inr (Or.inr ⟨u, by simp [processAccount, hvld, hres, hu, hud]⟩)
    | false =>
      cases hg : getToken env.auth with
      | none => exact Or.inl (by simp [processAccount, hvld, hg])
      | some t =>
        cases hres : (executeDailyTasks env.task s).result with
        | false => exact Or.inr (Or.inl (by simp [processAccount, hvld, hg, hres]))
        | true =>
          cases hu : env.userResp with
          | error e => exact Or.inr (Or.inl (by simp [processAccount, hvld, hg, hres, hu]))
          | ok uresp =>
            cases hud : uresp.data with
            | none =>
              exact Or.inr (Or.inl (by simp [processAccount, hvld, hg, hres, hu, hud]))
            | some u =>
              exact Or.inr (Or.inr ⟨u, by simp [processAccount, hvld, hg, hres, hu, hud]⟩)

/-- `processAccount` advances `agents` and `requests` each by at most one,
and `txs` by exactly their sum. -/
theorem processAccount_ctrs (env : ProcEnv) (s : AccountStats) (tok : Option TokenData) :
    ∃ a r : Nat, a ≤ 1 ∧ r ≤ 1
      ∧ (processAccount env s tok).stats.agents = s.agents + a
      ∧ (processAccount env s tok).stats.requests = s.requests + r
      ∧ (processAccount env s tok).stats.txs = s.txs + a + r := by
  rcases processAccount_stats_cases env s tok with h | h | ⟨u, h⟩
  · exact ⟨0, 0, by omega, by omega, by simp [h], by simp [h], by simp [h]⟩
  · obtain ⟨a, r, ha, hr, h1, h2, h3⟩ := executeDailyTasks_ctrs env.task s
    exact ⟨a, r, ha, hr, by simp [h, h1], by simp [h, h2], by simp [h, h3]⟩
  · obtain ⟨a, r, ha, hr, h1, h2, h3⟩ := executeDailyTasks_ctrs env.task s
    exact ⟨a, r, ha, hr, by simp [h, h1], by simp [h, h2], by simp [h, h3]⟩

/-- In every reachable state of one account's statistics the transaction
counter equals the sum of the two creation counters. -/
theorem reachable_txs_eq (s : AccountStats) (h : Reachable s) :
    s.txs = s.agents + s.requests := by
  induction h with
  | init t => simp [initStats]
  | @step env tok s' hs ih =>
    obtain ⟨a, r, ha, hr, h1, h2, h3⟩ := processAccount_ctrs env s' tok
    omega

/-- With a carried token that `checkTokenValid` accepts, `processAccount`
never calls `getToken` and always enters the daily-task step. -/
theorem processAccount_token_valid (env : ProcEnv) (s : AccountStats) (t : TokenData)
    (h : checkTokenValid env.now t.token_expire_time = true) :
    (processAccount env s (some t)).getTokenCalls = 0
    ∧ (processAccount env s (some t)).taskStarted = true := by
  cases hres : (executeDailyTasks env.task s).result with
  | false => simp [processAccount, h, hres]
  | true =>
    cases hu : env.userResp with
    | error e => simp [processAccount, h, hres, hu]
    | ok uresp =>
      cases hud : uresp.data with
      | none => simp [processAccount, h, hres, hu, hud]
      | some u => simp [processAccount, h, hres, hu, hud]

/-- With a carried token that `checkTokenValid` rejects, `processAccount`
calls `getToken` exactly once, and enters the daily-task step exactly when
that re-authentication yields a token. -/
theorem processAccount_token_expired (env : ProcEnv) (s : AccountStats) (t : TokenData)
    (h : checkTokenValid env.now t.token_expire_time = false) :
    (processAccount env s (some t)).getTokenCalls = 1
    ∧ (processAccount env s (some t)).taskStarted = (getToken env.auth).isSome := by
  cases hg : getToken env.auth with
  | none => simp [processAccount, h, hg]
  | some t2 =>
    cases hres : (executeDailyTasks env.task s).result with
    | false => simp [processAccount, h, hg, hres]
    | true =>
      cases hu : env.userResp with
      | error e => simp [processAccount, h, hg, hres, hu]
      | ok uresp =>
        cases hud : uresp.data with
        | none => simp [processAccount, h, hg, hres, hu, hud]
        | some u => simp [processAccount, h, hg, hres, hu, hud]

/-- C2: every stats-mutating operation preserves `errors ≥ 0` and
`txs ≤ agents + requests`; the predicate holds in every reachable state;
and `txs` moves only when the corresponding creation-plus-registration
step succeeded (returned `true`), together with its own counter. -/
theorem c2_counters_invariant :
    (∀ (env : AgentEnv) (s : AccountStats), s.txs ≤ s.agents + s.requests →
      (createAgent env s).stats.txs ≤
        (createAgent env s).stats.agents + (createAgent env s).stats.requests)
    ∧ (∀ (env : RequestEnv) (s : AccountStats), s.txs ≤ s.agents + s.requests →
      (createRequest env s).stats.txs ≤
        (createRequest env s).stats.agents + (createRequest env s).stats.requests)
    ∧ (∀ (env : TaskEnv) (s : AccountStats), s.txs ≤ s.agents + s.requests →
      (executeDailyTasks env s).stats.txs ≤
        (executeDailyTasks env s).stats.agents + (executeDailyTasks env s).stats.requests)
    ∧ (∀ (env : ProcEnv) (s : AccountStats) (tok : Option TokenData),
        s.txs ≤ s.agents + s.requests →
      (processAccount env s tok).stats.txs ≤
        (processAccount env s tok).stats.agents + (processAccount env s tok).stats.requests)
    ∧ (∀ s : AccountStats, Reachable s →
        0 ≤ s.errors ∧ s.txs ≤ s.agents + s.requests)
    ∧ (∀ (env : AgentEnv) (s : AccountStats), (createAgent env s).stats.txs ≠ s.txs →
        (createAgent env s).result = true
        ∧ (createAgent env s).stats.txs = s.txs + 1
        ∧ (createAgent env s).stats.agents = s.agents + 1)
    ∧ (∀ (env : RequestEnv) (s : AccountStats), (createRequest env s).stats.txs ≠ s.txs →
        (createRequest env s).result = true
        ∧ (createRequest env s).stats.txs = s.txs + 1
        ∧ (createRequest env s).stats.requests = s.requests + 1) := by
  refine ⟨?_, ?_, ?_, ?_, ?_, ?_, ?_⟩
  · intro env s h
    rcases createAgent_ctrs env s with ⟨h1, h2, h3⟩ | ⟨h1, h2, h3⟩ <;> omega
  · intro env s h
    rcases createRequest_ctrs env s with ⟨h1, h2, h3⟩ | ⟨h1, h2, h3⟩ <;> omega
  · intro env s h
    obtain ⟨a, r, ha, hr, h1, h2, h3⟩ := executeDailyTasks_ctrs env s
    omega
  · intro env s tok h
    obtain ⟨a, r, ha, hr, h1, h2, h3⟩ := processAccount_ctrs env s tok
    omega
  · intro s hs
    exact ⟨Nat.zero_le _, by have := reachable_txs_eq s hs; omega⟩
  · intro env s h
    rcases createAgent_stats_cases env s with h' | h' | ⟨h', hres⟩
    · exact absurd (by simp [h']) h
    · exact absurd (by simp [h']) h
    · exact ⟨hres, by simp [h'], by simp [h']⟩
  · intro env s h
    rcases createRequest_stats_cases env s with h' | h' | ⟨h', hres⟩
    · exact absurd (by simp [h']) h
    · exact absurd (by simp [h']) h
    · exact ⟨hres, by simp [h'], by simp [h']⟩

/-- Witness for C2 at the initial state, which is reachable. -/
theorem c2_counters_invariant_witness :
    0 ≤ (initStats 0).errors ∧ (initStats 0).txs ≤ (initStats 0).agents + (initStats 0).requests :=
  c2_counters_invariant.2.2.2.2.1 (initStats 0) (Reachable.init 0)

/-- C3 counterexample: at a concrete daily-task response whose `data`
field is absent, `executeDailyTasks` leaves the error counter unchanged
(the source just returns `false`), refuting the claimed increment by 1. -/
theorem c3_counterexample :
    (executeDailyTasks noDataTaskEnv (initStats 0)).stats.errors = (initStats 0).errors
    ∧ ¬ ((executeDailyTasks noDataTaskEnv (initStats 0)).stats.errors
        = (initStats 0).errors + 1) := by
  decide

/-- C3 (amended): if the daily-task status response lacks the two
completion flags or its `data` field, `executeDailyTasks` leaves the error
counter unchanged (it is NOT incremented) and issues no agent-creation,
request-creation or on-chain calls. -/
theorem c3_invalid_response_behaviour (env : TaskEnv) (s : AccountStats)
    (resp : VerifyResponse)
    (hv : retryResult env.verifyCalls = some (Except.ok resp))
    (hbad : resp.data = none
      ∨ ∃ d, resp.data = some d
          ∧ (d.is_create_agent = none ∨ d.is_create_request = none)) :
    (executeDailyTasks env s).stats.errors = s.errors
    ∧ (executeDailyTasks env s).agentAttempted = false
    ∧ (executeDailyTasks env s).requestAttempted = false
    ∧ (executeDailyTasks env s).agentCreateCalled = false
    ∧ (executeDailyTasks env s).requestCreateCalled = false
    ∧ (executeDailyTasks env s).chainCalled = false := by
  have h := executeDailyTasks_invalid env s resp hv hbad
  simp [h, skipOutcome]

/-- Witness for the amended C3 at a concrete flag-less response. -/
theorem c3_invalid_response_behaviour_witness :
    (executeDailyTasks noDataTaskEnv (initStats 0)).stats.errors = (initStats 0).errors
    ∧ (executeDailyTasks noDataTaskEnv (initStats 0)).agentCreateCalled = false :=
  ⟨(c3_invalid_response_behaviour noDataTaskEnv (initStats 0) ⟨none⟩ rfl (Or.inl rfl)).1,
    (c3_invalid_response_behaviour noDataTaskEnv (initStats 0) ⟨none⟩ rfl (Or.inl rfl)).2.2.2.1⟩

/-- C4: a daily-task status response lacking the completion flags (or its
`data` field) makes `executeDailyTasks` skip the account atomically: it
returns `false` with the whole `AccountStats` record — `lastRun` and
`cooldownSeconds` included — completely unchanged. -/
theorem c4_invalid_response_no_mutation (env : TaskEnv) (s : AccountStats)
    (resp : VerifyResponse)
    (hv : retryResult env.verifyCalls = some (Except.ok resp))
    (hbad : resp.data = none
      ∨ ∃ d, resp.data = some d
          ∧ (d.is_create_agent = none ∨ d.is_create_request = none)) :
    (executeDailyTasks env s).stats = s ∧ (executeDailyTasks env s).result = false := by
  have h := executeDailyTasks_invalid env s resp hv hbad
  simp [h, skipOutcome]

/-- Witness for C4 at a concrete response carrying `data` but leaving both
completion flags undefined. -/
theorem c4_invalid_response_no_mutation_witness :
    (executeDailyTasks noFlagsTaskEnv (initStats 5)).stats = initStats 5
    ∧ (executeDailyTasks noFlagsTaskEnv (initStats 5)).result = false :=
  c4_invalid_response_no_mutation noFlagsTaskEnv (initStats 5) ⟨some ⟨none, none, 1000⟩⟩
    rfl (Or.inr ⟨⟨none, none, 1000⟩, rfl, Or.inl rfl⟩)

/-- C5 counterexample: at a concrete run where the AI agent content has an
empty name while both tasks are open and the request pipeline succeeds,
the agent step is abandoned with NO error-counter increment (refuting the
claimed increment), no agent creation is submitted, and the request task
is still attempted. -/
theorem c5_counterexample :
    emptyNameAgentEnv.genContent = Except.ok ⟨"", "a helpful agent"⟩
    ∧ (executeDailyTasks emptyNameTaskEnv (initStats 0)).agentAttempted = true
    ∧ (executeDailyTasks emptyNameTaskEnv (initStats 0)).agentCreateCalled = false
    ∧ (executeDailyTasks emptyNameTaskEnv (initStats 0)).requestAttempted = true
    ∧ (executeDailyTasks emptyNameTaskEnv (initStats 0)).stats.errors = (initStats 0).errors
    ∧ ¬ ((executeDailyTasks emptyNameTaskEnv (initStats 0)).stats.errors
        = (initStats 0).errors + 1) := by
  refine ⟨rfl, ?_, ?_, ?_, ?_, ?_⟩ <;> decide

/-- C5 (amended): when the AI-generated agent content lacks a non-empty
name or description, `createAgent` submits nothing, returns `false` and
leaves the stats — the error counter included — unchanged; and in the same
`executeDailyTasks` invocation with both flags false the request task is
still attempted. -/
theorem c5_invalid_agent_content (aenv : AgentEnv) (s : AccountStats) (a : AgentData)
    (hg : aenv.genContent = Except.ok a)
    (hinv : a.name_agent = "" ∨ a.description = "") :
    createAgent aenv s = ⟨s, false, false, false⟩
    ∧ ∀ (env : TaskEnv) (resp : VerifyResponse) (d : VerifyData),
        retryResult env.verifyCalls = some (Except.ok resp) →
        resp.data = some d →
        d.is_create_agent = some false →
        d.is_create_request = some false →
        (executeDailyTasks env s).requestAttempted = true := by
  constructor
  · simp [createAgent, hg, hinv]
  · intro env resp d hv hd hca hcr
    simp [executeDailyTasks, hv, hd, hca, hcr]

/-- Witness for the amended C5 at the concrete empty-name content. -/
theorem c5_invalid_agent_content_witness :
    createAgent emptyNameAgentEnv (initStats 0) = ⟨initStats 0, false, false, false⟩
    ∧ (executeDailyTasks emptyNameTaskEnv (initStats 0)).requestAttempted = true := by
  have h := c5_invalid_agent_content emptyNameAgentEnv (initStats 0)
    ⟨"", "a helpful agent"⟩ rfl (Or.inl rfl)
  exact ⟨h.1, h.2 emptyNameTaskEnv ⟨some ⟨some false, some false, 1000⟩⟩
    ⟨some false, some false, 1000⟩ rfl rfl rfl rfl⟩

/-- C6: when both completion flags of the daily-task status are true,
`executeDailyTasks` attempts neither creation step, issues no creation or
on-chain calls, and leaves `agents`, `requests` and `txs` at their prior
values. -/
theorem c6_completed_idempotent (env : TaskEnv) (s : AccountStats)
    (resp : VerifyResponse) (d : VerifyData)
    (hv : retryResult env.verifyCalls = some (Except.ok resp))
    (hd : resp.data = some d)
    (hca : d.is_create_agent = some true)
    (hcr : d.is_create_request = some true) :
    (executeDailyTasks env s).agentAttempted = false
    ∧ (executeDailyTasks env s).requestAttempted = false
    ∧ (executeDailyTasks env s).agentCreateCalled = false
    ∧ (executeDailyTasks env s).requestCreateCalled = false
    ∧ (executeDailyTasks env s).chainCalled = false
    ∧ (executeDailyTasks env s).stats.agents = s.agents
    ∧ (executeDailyTasks env s).stats.requests = s.requests
    ∧ (executeDailyTasks env s).stats.txs = s.txs := by
  simp [executeDailyTasks, hv, hd, hca, hcr]

/-- Witness for C6 at a concrete both-tasks-completed response. -/
theorem c6_completed_idempotent_witness :
    (executeDailyTasks bothDoneTaskEnv (initStats 0)).agentCreateCalled = false
    ∧ (executeDailyTasks bothDoneTaskEnv (initStats 0)).stats.txs = (initStats 0).txs :=
  ⟨(c6_completed_idempotent bothDoneTaskEnv (initStats 0)
      ⟨some ⟨some true, some true, 1000⟩⟩ ⟨some true, some true, 1000⟩
      rfl rfl rfl rfl).2.2.1,
    (c6_completed_idempotent bothDoneTaskEnv (initStats 0)
      ⟨some ⟨some true, some true, 1000⟩⟩ ⟨some true, some true, 1000⟩
      rfl rfl rfl rfl).2.2.2.2.2.2.2⟩

/-- C7: `checkTokenValid` is the pure comparison returning `false` iff
`now ≥ expiresAt`; `processAccount` with a carried token whose expiry is
strictly in the future calls `getToken` zero times and always proceeds to
task processing, and with an expired token calls `getToken` exactly once,
task processing starting exactly when the re-authentication succeeds. -/
theorem c7_session_validity (now e : Int) (env : ProcEnv) (s : AccountStats)
    (t : TokenData) :
    (checkTokenValid now e = false ↔ now ≥ e)
    ∧ (env.now < t.token_expire_time →
        (processAccount env s (some t)).getTokenCalls = 0
        ∧ (processAccount env s (some t)).taskStarted = true)
    ∧ (env.now ≥ t.token_expire_time →
        (processAccount env s (some t)).getTokenCalls = 1
        ∧ (processAccount env s (some t)).taskStarted = (getToken env.auth).isSome) := by
  refine ⟨?_, ?_, ?_⟩
  · by_cases h : now ≥ e <;> simp [checkTokenValid, h]
  · intro h
    exact processAccount_token_valid env s t (by simp [checkTokenValid, not_le.mpr h])
  · intro h
    exact processAccount_token_expired env s t (by simp [checkTokenValid, h])

/-- Witness for C7: with a concrete carried token expiring at 200 and the
clock at 100, no re-authentication happens and the task step runs. -/
theorem c7_session_validity_witness :
    (processAccount okAuthProcEnv (initStats 0) (some ⟨"tk", 200, "0xaddr"⟩)).getTokenCalls = 0
    ∧ (processAccount okAuthProcEnv (initStats 0) (some ⟨"tk", 200, "0xaddr"⟩)).taskStarted
        = true :=
  (c7_session_validity 0 1 okAuthProcEnv (initStats 0) ⟨"tk", 200, "0xaddr"⟩).2.1 (by decide)

/-- C8: whenever the daily-task status passes validation, the stored
`cooldownSeconds` equals `finishTime + 86400 - now` in exact integer
arithmetic, regardless of which task branches are taken. -/
theorem c8_cooldown_arithmetic (env : TaskEnv) (s : AccountStats)
    (resp : VerifyResponse) (d : VerifyData) (ca0 cr0 : Bool)
    (hv : retryResult env.verifyCalls = some (Except.ok resp))
    (hd : resp.data = some d)
    (hca : d.is_create_agent = some ca0)
    (hcr : d.is_create_request = some cr0) :
    (executeDailyTasks env s).stats.cooldownSeconds = d.finish_time + 86400 - env.now := by
  have h := (executeDailyTasks_valid env s resp d ca0 cr0 hv hd hca hcr).1
  rw [h]
  norm_num

/-- Witness for C8: `finishTime = 1000`, `now = 1000 + 3600`, so the
stored cooldown is `86400 - 3600 = 82800`. -/
theorem c8_cooldown_arithmetic_witness :
    (executeDailyTasks bothDoneTaskEnv (initStats 0)).stats.cooldownSeconds = 82800 := by
  have h := c8_cooldown_arithmetic bothDoneTaskEnv (initStats 0)
    ⟨some ⟨some true, some true, 1000⟩⟩ ⟨some true, some true, 1000⟩ true true
    rfl rfl rfl rfl
  rw [h]
  decide

/-- C9: when authentication yields no token, `processAccount` returns with
the account's `AccountStats` record entirely unchanged (no `lastRun`
update), the session slot `null` and the task step never entered; and the
cycle runner processes the remaining accounts exactly as it would have,
each from its own state. -/
theorem c9_auth_failure_frame (env : ProcEnv) (s : AccountStats)
    (e : ProcEnv) (es : List ProcEnv) (p : AccountStats × Option TokenData)
    (ps : List (AccountStats × Option TokenData))
    (h : getToken env.auth = none) :
    processAccount env s none = ⟨s, none, 1, false⟩
    ∧ runCycle (e :: es) (p :: ps) =
        ((processAccount e p.1 p.2).stats, (processAccount e p.1 p.2).tokenData)
          :: runCycle es ps := by
  constructor
  · simp [processAccount, h]
  · rfl

/-- Witness for C9 at a concrete failing authentication environment. -/
theorem c9_auth_failure_frame_witness :
    processAccount failAuthProcEnv (initStats 0) none = ⟨initStats 0, none, 1, false⟩
    ∧ runCycle [failAuthProcEnv] [(initStats 0, none)] =
        ((processAccount failAuthProcEnv (initStats 0) none).stats,
          (processAccount failAuthProcEnv (initStats 0) none).tokenData) :: runCycle [] [] :=
  c9_auth_failure_frame failAuthProcEnv (initStats 0) failAuthProcEnv []
    (initStats 0, none) [] rfl

/-- C10: the three counters start at 0; in every reachable state
`txs = agents + requests` exactly; and each creation step either leaves
its counter pair untouched or advances its own counter and `txs` together
by one. -/
theorem c10_txs_equals_sum :
    (∀ t : Int, (initStats t).agents = 0 ∧ (initStats t).requests = 0
      ∧ (initStats t).txs = 0)
    ∧ (∀ s : AccountStats, Reachable s → s.txs = s.agents + s.requests)
    ∧ (∀ (env : AgentEnv) (s : AccountStats),
        ((createAgent env s).stats.agents = s.agents
          ∧ (createAgent env s).stats.txs = s.txs)
        ∨ ((createAgent env s).stats.agents = s.agents + 1
          ∧ (createAgent env s).stats.txs = s.txs + 1))
    ∧ (∀ (env : RequestEnv) (s : AccountStats),
        ((createRequest env s).stats.requests = s.requests
          ∧ (createRequest env s).stats.txs = s.txs)
        ∨ ((createRequest env s).stats.requests = s.requests + 1
          ∧ (createRequest env s).stats.txs = s.txs + 1)) := by
  refine ⟨?_, ?_, ?_, ?_⟩
  · intro t
    simp [initStats]
  · intro s h
    exact reachable_txs_eq s h
  · intro env s
    rcases createAgent_ctrs env s with ⟨h1, h2, h3⟩ | ⟨h1, h2, h3⟩
    · exact Or.inl ⟨h1, h3⟩
    · exact Or.inr ⟨h1, h3⟩
  · intro env s
    rcases createRequest_ctrs env s with ⟨h1, h2, h3⟩ | ⟨h1, h2, h3⟩
    · exact Or.inl ⟨h2, h3⟩
    · exact Or.inr ⟨h2, h3⟩

/-- Witness for C10 at a concrete reachable state. -/
theorem c10_txs_equals_sum_witness :
    (initStats 3).txs = (initStats 3).agents + (initStats 3).requests :=
  c10_txs_equals_sum.2.1 (initStats 3) (Reachable.init 3)
